import Mathlib

/-!
Shallow embedding of the `vpn` Django app (tunnel-max repository):
`vpn/models.py` (AppUser, Session, ServerConfig rows), `vpn/views.py`
(start_session, end_session, the two `stats` view definitions, server_config)
and `vpn/urls.py` (urlpatterns).

Machine/JSON numbers are modelled as `Int`/`ℚ` (Python ints are unbounded;
floats are idealised as exact rationals).  Timestamps (`timezone.now()`,
`auto_now`, `auto_now_add`) are modelled as natural numbers supplied by the
caller.  Uncaught Python exceptions (ValueError from `int(...)`, Django
FieldError from queries over undeclared columns) surface as a 500-class
`serverError` response, as Django's request handler turns them into
HTTP 500; DRF `Response`/`JsonResponse` bodies are association lists.
-/

/-- A raw value arriving in `request.data` for a byte-counter key: either a
value that Python's `int(...)` converts successfully (JSON numbers, numeric
strings), modelled by the converted integer, or a value `int(...)` rejects
with ValueError. -/
inductive RawVal where
  | intVal (n : Int)
  | nonIntVal
  deriving DecidableEq, Repr

/-- JSON-serialisable values appearing in response bodies.  `groups` holds the
result of a `values(...).annotate(count=Count(...))` queryset rendered as
(key-representation, count) pairs. -/
inductive JVal where
  | null
  | bool (b : Bool)
  | int (n : Int)
  | rat (q : ℚ)
  | str (s : String)
  | groups (l : List (String × Nat))
  deriving DecidableEq, Repr

/-- models.py `AppUser`: user_id (unique CharField), device_os, app_version,
created_at (auto_now_add).  The CharFields hold whatever `request.data.get`
produced, hence `Option String`. -/
structure AppUserRow where
  id : Nat
  user_id : Option String
  device_os : Option String
  app_version : Option String
  created_at : Nat
  deriving DecidableEq, Repr

/-- models.py `Session`: FK to AppUser (stored as the owner's pk in column
`user_id`), start_time (default timezone.now), nullable end_time,
bytes_sent/bytes_received (BigIntegerField, default 0), active (default True). -/
structure SessionRow where
  id : Nat
  user_id : Nat
  start_time : Nat
  end_time : Option Nat
  bytes_sent : Int
  bytes_received : Int
  active : Bool
  deriving DecidableEq, Repr

/-- models.py `ServerConfig`: server_ip, port, protocol, dns, optional
message, last_updated (auto_now). -/
structure ServerConfigRow where
  id : Nat
  server_ip : String
  port : Nat
  protocol : String
  dns : String
  message : Option String
  last_updated : Nat
  deriving DecidableEq, Repr

/-- The relational store: the three tables the views touch, plus the
auto-increment counters for the two tables the views insert into.
(`AppInstall` is never read or written by any view and is omitted.) -/
structure Store where
  users : List AppUserRow
  sessions : List SessionRow
  configs : List ServerConfigRow
  nextUserId : Nat
  nextSessionId : Nat
  deriving DecidableEq, Repr

/-- The keys of `request.data` that the views read.  Absent keys are `none`. -/
structure Req where
  user_id : Option String
  device_os : Option String
  app_version : Option String
  session_id : Option Nat
  bytes_sent : Option RawVal
  bytes_received : Option RawVal
  deriving DecidableEq, Repr

def emptyReq : Req := ⟨none, none, none, none, none, none⟩

def emptyStore : Store := ⟨[], [], [], 1, 1⟩

/-- An HTTP response: a JSON body with a status code (DRF `Response` defaults
to 200; `Response(..., status=404)` and `JsonResponse(..., status=404)` give
404), or a 500-class response produced by an uncaught exception. -/
inductive Resp where
  | json (status : Nat) (body : List (String × JVal))
  | serverError (msg : String)
  deriving DecidableEq, Repr

def Resp.statusCode : Resp → Nat
  | .json s _ => s
  | .serverError _ => 500

/-- Whether a response carries a 4xx (client-error) status. -/
def isClientError (r : Resp) : Bool :=
  decide (400 ≤ r.statusCode) && decide (r.statusCode < 500)

/-- Python `int(x)`: succeeds on int-convertible values, raises ValueError
otherwise. -/
def pyInt : RawVal → Except String Int
  | .intVal n => .ok n
  | .nonIntVal => .error "ValueError"

/-- Python `x or d` where `x : Optional[int]`: `None` and `0` are falsy. -/
def pyOrInt (o : Option Int) (d : Int) : Int :=
  match o with
  | none => d
  | some v => if v = 0 then d else v

/-- Round-half-to-even on rationals, the tie rule of Python's `round`. -/
def roundHalfEven (q : ℚ) : ℤ :=
  if q - (⌊q⌋ : ℚ) < 1/2 then ⌊q⌋
  else if (1:ℚ)/2 < q - (⌊q⌋ : ℚ) then ⌊q⌋ + 1
  else if ⌊q⌋ % 2 = 0 then ⌊q⌋ else ⌊q⌋ + 1

/-- Python `round(x, 2)` idealised over exact rationals. -/
def pyRound2 (q : ℚ) : ℚ := (roundHalfEven (q * 100) : ℚ) / 100

/-- The column names Django can resolve on `Session` (declared fields, the FK
under both its name `user` and its attname `user_id`, and the pk `id`).
`data_used_mb`, `device_os` and `app_version` are NOT among them: `Session`
declares no such fields. -/
def sessionFields : List String :=
  ["id", "user", "user_id", "start_time", "end_time",
   "bytes_sent", "bytes_received", "active"]

/-- The integer columns of `Session` that `Sum(...)` can aggregate. -/
def sessionSummableFields : List String := ["bytes_sent", "bytes_received"]

/-- Value of a declared `Session` column on a row, as a JSON value. -/
def SessionRow.getField (r : SessionRow) (f : String) : Option JVal :=
  if f = "id" then some (.int (r.id : Int))
  else if f = "user" ∨ f = "user_id" then some (.int (r.user_id : Int))
  else if f = "start_time" then some (.int (r.start_time : Int))
  else if f = "end_time" then some ((r.end_time.map (fun t => JVal.int (t : Int))).getD .null)
  else if f = "bytes_sent" then some (.int r.bytes_sent)
  else if f = "bytes_received" then some (.int r.bytes_received)
  else if f = "active" then some (.bool r.active)
  else none

/-- Value of a summable `Session` column on a row. -/
def SessionRow.intField (r : SessionRow) (f : String) : Int :=
  if f = "bytes_sent" then r.bytes_sent
  else if f = "bytes_received" then r.bytes_received
  else 0

/-- `Session.objects.aggregate(Sum(f))`: FieldError when `f` is not a
summable declared column; otherwise `None` over an empty table and the sum
over a non-empty one, exactly as SQL `SUM`. -/
def aggSum (s : Store) (f : String) : Except String (Option Int) :=
  if f ∈ sessionSummableFields then
    .ok (if s.sessions.isEmpty then none
         else some ((s.sessions.map (fun r => r.intField f)).sum))
  else .error ("FieldError: " ++ f)

/-- `Session.objects.values(f).distinct().count()`: FieldError when `f` is
not a declared column; otherwise the number of distinct values of `f`. -/
def valuesDistinctCount (s : Store) (f : String) : Except String Nat :=
  if f ∈ sessionFields then
    .ok ((s.sessions.map (fun r => r.getField f)).dedup.length)
  else .error ("FieldError: " ++ f)

/-- String rendering of a column value, used as group-by key. -/
def jvalKeyStr : Option JVal → String
  | none => "None"
  | some .null => "None"
  | some (.bool b) => toString b
  | some (.int n) => toString n
  | some (.rat q) => toString q.num ++ "/" ++ toString q.den
  | some (.str s) => s
  | some (.groups _) => "groups"

/-- Occurrence counts of each key, keys in first-appearance order. -/
def tally (l : List String) : List (String × Nat) :=
  l.dedup.map (fun k => (k, l.count k))

def insertByCountDesc (p : String × Nat) : List (String × Nat) → List (String × Nat)
  | [] => [p]
  | q :: rest => if q.2 < p.2 then p :: q :: rest else q :: insertByCountDesc p rest

/-- Insertion sort by descending count, modelling `order_by(-count)`. -/
def sortByCountDesc : List (String × Nat) → List (String × Nat)
  | [] => []
  | p :: rest => insertByCountDesc p (sortByCountDesc rest)

/-- `Session.objects.values(f).annotate(count=Count(f)).order_by(-count)`,
evaluated: FieldError when `f` is not a declared column. -/
def groupByCount (s : Store) (f : String) : Except String (List (String × Nat)) :=
  if f ∈ sessionFields then
    .ok (sortByCountDesc (tally (s.sessions.map (fun r => jvalKeyStr (r.getField f)))))
  else .error ("FieldError: " ++ f)

/-- Uniform view signature: request data, current time, store in; response
and store out. -/
abbrev View := Req → Nat → Store → Resp × Store

/-- views.py `start_session`: `AppUser.objects.get_or_create(user_id=...,
defaults={device_os, app_version})` — lookup by user_id, insert with the
defaults (and created_at = now) only when absent, never overwriting on hit —
then `Session.objects.create(user=user)` with all Session defaults, and a
200 body `{session_id, status: "started"}`. -/
def start_session : View := fun req now s =>
  let us : AppUserRow × Store :=
    match s.users.find? (fun u => u.user_id == req.user_id) with
    | some u => (u, s)
    | none =>
      let u : AppUserRow := ⟨s.nextUserId, req.user_id, req.device_os, req.app_version, now⟩
      (u, { s with users := s.users ++ [u], nextUserId := s.nextUserId + 1 })
  let sess : SessionRow := ⟨us.2.nextSessionId, us.1.id, now, none, 0, 0, true⟩
  (.json 200 [("session_id", .int (sess.id : Int)), ("status", .str "started")],
   { us.2 with sessions := us.2.sessions ++ [sess],
               nextSessionId := us.2.nextSessionId + 1 })

/-- views.py `end_session`: `int(...)` on both byte counters first (an
unparseable value raises ValueError — uncaught, hence 500-class — before any
store access), then `Session.objects.get(id=session_id)`; on DoesNotExist a
404 `{error: "Invalid session ID"}`, otherwise end_time := now,
active := False, the two byte counters := the parsed values, save, and a 200
`{status: "ended"}`. -/
def end_session : View := fun req now s =>
  match pyInt (req.bytes_sent.getD (.intVal 0)),
        pyInt (req.bytes_received.getD (.intVal 0)) with
  | .ok sent, .ok received =>
    (match s.sessions.find? (fun x => req.session_id == some x.id) with
     | some sess =>
       let updated : SessionRow :=
         { sess with end_time := some now, active := false,
                     bytes_sent := sent, bytes_received := received }
       (.json 200 [("status", .str "ended")],
        { s with sessions :=
            s.sessions.map (fun x => if x.id == sess.id then updated else x) })
     | none => (.json 404 [("error", .str "Invalid session ID")], s))
  | .error e, _ => (.serverError e, s)
  | .ok _, .error e => (.serverError e, s)

/-- views.py FIRST definition of `stats` (the GetStats view): count of
active sessions, and `((Sum(bytes_sent) or 0) + (Sum(bytes_received) or 0))
/ (1024 * 1024)` rounded to 2 decimals.  In Python this definition is
immediately shadowed by the second `def stats` below, so `views.stats` never
refers to it. -/
def stats_v1 : View := fun _req _now s =>
  let connected := s.sessions.countP (fun x => x.active)
  match aggSum s "bytes_sent", aggSum s "bytes_received" with
  | .ok sent, .ok received =>
    let total_mb : ℚ := ((pyOrInt sent 0 + pyOrInt received 0 : Int) : ℚ) / (1024 * 1024)
    (.json 200 [("connected_users", .int (connected : Int)),
                ("total_data_MB", .rat (pyRound2 total_mb))], s)
  | .error e, _ => (.serverError e, s)
  | .ok _, .error e => (.serverError e, s)

/-- views.py SECOND definition of `stats` (the detailed-stats view), the one
`views.stats` denotes after Python's redefinition: distinct `user_id` count,
session count, `aggregate(Sum(data_used_mb)) or 0`, count of null
end_time, and group-by counts over `device_os` / `app_version`, returned as
a JsonResponse — evaluated in source order, so the `Sum` over the undeclared
`data_used_mb` column raises FieldError before anything is returned. -/
def stats : View := fun _req _now s =>
  let body : Except String (List (String × JVal)) := do
    let total_users ← valuesDistinctCount s "user_id"
    let total_sessions := s.sessions.length
    let sumUsed ← aggSum s "data_used_mb"
    let total_data_used : Int := pyOrInt sumUsed 0
    let active_sessions := s.sessions.countP (fun x => x.end_time.isNone)
    let os_stats ← groupByCount s "device_os"
    let app_stats ← groupByCount s "app_version"
    pure [("total_users", .int (total_users : Int)),
          ("total_sessions", .int (total_sessions : Int)),
          ("active_sessions", .int (active_sessions : Int)),
          ("total_data_used_mb", .rat (pyRound2 (total_data_used : ℚ))),
          ("top_os_versions", .groups os_stats),
          ("top_app_versions", .groups app_stats)]
  match body with
  | .ok b => (.json 200 b, s)
  | .error e => (.serverError e, s)

/-- Django `QuerySet.last()` on the unordered `ServerConfig.objects`: Django
orders by primary key when no ordering is declared and returns the final
row, i.e. the row with the greatest pk (among equal pks, the latest). -/
def djangoLast : List ServerConfigRow → Option ServerConfigRow
  | [] => none
  | r :: rest =>
    (djangoLast rest).elim (some r) (fun a => if r.id ≤ a.id then some a else some r)

/-- The JSON body `server_config` builds from a config row. -/
def configBody (c : ServerConfigRow) : List (String × JVal) :=
  [("server_ip", .str c.server_ip), ("port", .int (c.port : Int)),
   ("protocol", .str c.protocol), ("dns", .str c.dns),
   ("message", c.message.elim JVal.null JVal.str)]

/-- views.py `server_config`: `ServerConfig.objects.last()`; its fields on a
hit, 404 `{error: "No config found"}` otherwise. -/
def server_config : View := fun _req _now s =>
  match djangoLast s.configs with
  | some config => (.json 200 (configBody config), s)
  | none => (.json 404 [("error", .str "No config found")], s)

/-- urls.py `urlpatterns`.  `views.stats` resolves to the SECOND `stats`
definition (Python name shadowing), i.e. the detailed-stats view. -/
def urlpatterns : List (String × View) :=
  [("start-session/", start_session),
   ("end-session/", end_session),
   ("stats/", stats),
   ("server-config/", server_config)]

/-- An API operation of the Session Service: the two mutating views with
their request data and invocation time. -/
inductive Op where
  | startOp (req : Req) (now : Nat)
  | endOp (req : Req) (now : Nat)
  deriving DecidableEq, Repr

/-- Store transition of one operation (the store component of the view). -/
def step (s : Store) : Op → Store
  | .startOp req now => (start_session req now s).2
  | .endOp req now => (end_session req now s).2

/-- The store reached from the initial empty store by a sequence of
StartSession / EndSession operations. -/
def run (ops : List Op) : Store := ops.foldl step emptyStore

/-- Whether a raw byte-counter input, if it is a present integer, is
non-negative. -/
def nonNegRawB : Option RawVal → Bool
  | some (.intVal n) => decide (0 ≤ n)
  | _ => true

/-- Whether an operation supplies no negative byte-counter input. -/
def Op.nonNegInputs : Op → Bool
  | .startOp _ _ => true
  | .endOp req _ => nonNegRawB req.bytes_sent && nonNegRawB req.bytes_received

/-- Invariant of claim C8: a session with null end_time is active. -/
def InvNullEndActive (s : Store) : Prop :=
  ∀ x ∈ s.sessions, x.end_time = none → x.active = true

/-- Invariant of claim C7: byte counters are non-negative. -/
def InvBytesNonNeg (s : Store) : Prop :=
  ∀ x ∈ s.sessions, 0 ≤ x.bytes_sent ∧ 0 ≤ x.bytes_received

/-- Modelled from the spec: "Returns the ServerConfig row with the latest
last-updated timestamp" — the row whose `last_updated` is strictly greatest
(earliest such row on ties).  This is the spec-side reading of
GetServerConfig, to be compared with the source's `djangoLast`. -/
def latestUpdated : List ServerConfigRow → Option ServerConfigRow
  | [] => none
  | r :: rest =>
    match latestUpdated rest with
    | none => some r
    | some a => if a.last_updated < r.last_updated then some r else some a

/-- Claim C2 read at one store: the response of GetServerConfig equals the
fields of the latest-updated row, or the 404 body when no row exists. -/
def C2ClaimAt (s : Store) : Prop :=
  (server_config emptyReq 0 s).1 =
    (latestUpdated s.configs).elim
      (.json 404 [("error", JVal.str "No config found")])
      (fun c => .json 200 (configBody c))

/-- An EndSession request carrying a session id and two integer byte counts. -/
def endReq (sid : Nat) (a b : Int) : Req :=
  { emptyReq with session_id := some sid,
                  bytes_sent := some (.intVal a),
                  bytes_received := some (.intVal b) }

/-- A store holding one active session with pk 1. -/
def store9 : Store :=
  { emptyStore with sessions := [⟨1, 1, 0, none, 0, 0, true⟩], nextSessionId := 2 }

/-- A store holding one user "u1". -/
def storeU : Store :=
  { emptyStore with users := [⟨1, some "u1", some "android", some "1.0", 0⟩],
                    nextUserId := 2 }

def cfgA : ServerConfigRow := ⟨1, "10.0.0.1", 1194, "udp", "1.1.1.1", some "hello", 100⟩

def cfgB : ServerConfigRow := ⟨2, "10.0.0.2", 443, "tcp", "8.8.8.8", none, 50⟩

/-- Two config rows: the row with the smaller pk was updated later. -/
def storeCfg : Store := { emptyStore with configs := [cfgA, cfgB] }

lemma stats_detailed_error (req : Req) (now : Nat) (s : Store) :
    stats req now s = (.serverError "FieldError: data_used_mb", s) := rfl

/-- C1: a GET to /stats/ does NOT return a body with fields connected_users
and total_data_MB.  The handler urls.py binds to the /stats/ route is the
second `stats` definition (the detailed-stats view) — Python's redefinition
shadows the GetStats view — and on every request data, time and store state
it fails with a FieldError over the undeclared `data_used_mb` column,
surfaced as a 500-class response. -/
theorem c1_stats_route_binds_shadowing_detailed_view :
    ∃ h : View, urlpatterns.find? (fun p => p.1 == "stats/") = some ("stats/", h) ∧
      ∀ (req : Req) (now : Nat) (s : Store),
        (h req now s).1 = .serverError "FieldError: data_used_mb" := by
  refine ⟨stats, rfl, fun req now s => ?_⟩
  rw [stats_detailed_error]

lemma pyOrInt_some (v : Int) : pyOrInt (some v) 0 = v := by
  show (if v = 0 then 0 else v) = v
  split_ifs with h
  · rw [h]
  · rfl

lemma pyOrInt_agg (l : List Int) :
    pyOrInt (if l.isEmpty then none else some l.sum) 0 = l.sum := by
  cases l with
  | nil => rfl
  | cons a t => rw [if_neg (by simp), pyOrInt_some]

lemma aggSum_bytes_sent (s : Store) :
    aggSum s "bytes_sent" =
      .ok (if (s.sessions.map (fun r => r.bytes_sent)).isEmpty then none
           else some (s.sessions.map (fun r => r.bytes_sent)).sum) := by
  unfold aggSum
  rw [if_pos (by decide)]
  cases s.sessions with
  | nil => rfl
  | cons a t => rfl

lemma aggSum_bytes_received (s : Store) :
    aggSum s "bytes_received" =
      .ok (if (s.sessions.map (fun r => r.bytes_received)).isEmpty then none
           else some (s.sessions.map (fun r => r.bytes_received)).sum) := by
  unfold aggSum
  rw [if_pos (by decide)]
  cases s.sessions with
  | nil => rfl
  | cons a t => rfl

/-- C5: on every store state GetStats (the first `stats` definition) returns
connected_users = count of Sessions with active = true and total_data_MB =
(sum of bytes_sent over all Sessions + sum of bytes_received over all
Sessions) / 1048576 rounded to 2 decimal places; the empty table gives sums
of 0, hence {connected_users: 0, total_data_MB: 0}. -/
theorem c5_get_stats_formula (req : Req) (now : Nat) (s : Store) :
    stats_v1 req now s =
      (.json 200
        [("connected_users", JVal.int (s.sessions.countP (fun x => x.active) : Int)),
         ("total_data_MB", JVal.rat (pyRound2
            ((((s.sessions.map (fun x => x.bytes_sent)).sum
               + (s.sessions.map (fun x => x.bytes_received)).sum : Int) : ℚ) / 1048576)))], s) := by
  unfold stats_v1
  rw [aggSum_bytes_sent, aggSum_bytes_received]
  simp only [pyOrInt_agg]
  norm_num

/-- C10 counterexample: at the empty store, GetDetailedStats (the second
`stats` definition) does not return the claimed grouped-statistics body at
all — it fails with a FieldError (500-class) on the undeclared
`data_used_mb` column. -/
theorem c10_counterexample_detailed_stats_errors :
    (stats emptyReq 0 emptyStore).1 = .serverError "FieldError: data_used_mb" ∧
    Resp.statusCode (stats emptyReq 0 emptyStore).1 = 500 ∧
    (stats emptyReq 0 emptyStore).1 ≠
      Resp.json 200
        [("total_users", JVal.int 0), ("total_sessions", JVal.int 0),
         ("active_sessions", JVal.int 0), ("total_data_used_mb", JVal.rat 0),
         ("top_os_versions", JVal.groups []), ("top_app_versions", JVal.groups [])] := by
  refine ⟨rfl, rfl, ?_⟩
  decide

/-- C10 amended: GetDetailedStats never returns its body: on every request
data, time and store state it fails with a FieldError on the undeclared
`data_used_mb` column (a 500-class response), leaving the store unchanged;
only the distinct-user count and the session count — whose columns are
declared — are evaluated before the failure. -/
theorem c10_amended_detailed_stats_always_field_error (req : Req) (now : Nat) (s : Store) :
    stats req now s = (.serverError "FieldError: data_used_mb", s) ∧
    valuesDistinctCount s "user_id" =
      .ok ((s.sessions.map (fun r => r.getField "user_id")).dedup.length) ∧
    aggSum s "data_used_mb" = .error "FieldError: data_used_mb" := by
  refine ⟨stats_detailed_error req now s, ?_, ?_⟩
  · unfold valuesDistinctCount
    rw [if_pos (by decide)]
  · unfold aggSum
    rw [if_neg (by decide)]
    rfl

lemma djangoLast_mem {l : List ServerConfigRow} {a : ServerConfigRow}
    (h : djangoLast l = some a) : a ∈ l := by
  induction l with
  | nil => cases h
  | cons r rest ih =>
    unfold djangoLast at h
    cases hr : djangoLast rest with
    | none =>
      rw [hr] at h
      simp only [Option.elim] at h
      cases h
      exact List.mem_cons_self _ _
    | some b =>
      rw [hr] at h
      simp only [Option.elim] at h
      by_cases hle : r.id ≤ b.id
      · rw [if_pos hle] at h
        cases h
        exact List.mem_cons_of_mem r (ih hr)
      · rw [if_neg hle] at h
        cases h
        exact List.mem_cons_self _ _

lemma djangoLast_eq_max {l : List ServerConfigRow} {c : ServerConfigRow}
    (hmem : c ∈ l) (hmax : ∀ r ∈ l, r ≠ c → r.id < c.id) :
    djangoLast l = some c := by
  induction l with
  | nil => cases hmem
  | cons r rest ih =>
    rcases List.mem_cons.mp hmem with hrc | hc
    · subst hrc
      unfold djangoLast
      cases hr : djangoLast rest with
      | none => rfl
      | some b =>
        simp only [Option.elim]
        have hb : b ∈ rest := djangoLast_mem hr
        by_cases hbc : b = c
        · subst hbc
          rw [if_pos le_rfl]
        · have hlt : b.id < c.id := hmax b (List.mem_cons_of_mem c hb) hbc
          rw [if_neg (by omega)]
    · have hrest : djangoLast rest = some c :=
        ih hc (fun r2 h2 => hmax r2 (List.mem_cons_of_mem r h2))
      unfold djangoLast
      rw [hrest]
      simp only [Option.elim]
      by_cases hrc : r = c
      · subst hrc
        rw [if_pos le_rfl]
      · have hlt : r.id < c.id := hmax r (List.mem_cons_self r rest) hrc
        rw [if_pos (by omega)]

/-- C2 counterexample: with two config rows where the row with the smaller
pk (cfgA, pk 1, last_updated 100) was updated later than the row with the
greater pk (cfgB, pk 2, last_updated 50), GetServerConfig does NOT return
the fields of the latest-updated row — `ServerConfig.objects.last()` picks
the greatest pk, i.e. cfgB. -/
theorem c2_counterexample_not_latest_updated : ¬ C2ClaimAt storeCfg := by
  unfold C2ClaimAt
  decide

/-- C2 amended: with zero ServerConfig rows GetServerConfig returns 404
{error: "No config found"}; with rows present it returns the fields
(server_ip, port, protocol, dns, message) of the row with the greatest
primary key — the most recently inserted row, which coincides with the
latest-updated row only when last_updated order matches pk order. -/
theorem c2_amended_server_config_last_by_pk (req : Req) (now : Nat) (s : Store) :
    (s.configs = [] →
        server_config req now s = (.json 404 [("error", JVal.str "No config found")], s)) ∧
    (∀ c ∈ s.configs, (∀ r ∈ s.configs, r ≠ c → r.id < c.id) →
        server_config req now s = (.json 200 (configBody c), s)) := by
  constructor
  · intro h
    show (match djangoLast s.configs with
          | some config => (Resp.json 200 (configBody config), s)
          | none => (.json 404 [("error", JVal.str "No config found")], s)) = _
    rw [h]
    rfl
  · intro c hmem hmax
    show (match djangoLast s.configs with
          | some config => (Resp.json 200 (configBody config), s)
          | none => (.json 404 [("error", JVal.str "No config found")], s)) = _
    rw [djangoLast_eq_max hmem hmax]

/-- C2 amended witness: on the two-row store the view returns cfgB (greatest
pk), discharging the max-pk hypothesis concretely. -/
theorem c2_amended_server_config_last_by_pk_witness :
    server_config emptyReq 0 storeCfg = (.json 200 (configBody cfgB), storeCfg) :=
  (c2_amended_server_config_last_by_pk emptyReq 0 storeCfg).2 cfgB (by decide) (by decide)

/-- C3 amended: an EndSession request whose bytes_sent or bytes_received is
present but not parseable as an integer fails — but with an uncaught
ValueError surfaced as a 500-class server error, not a 400-class client
error — and the store, hence every Session row, is unchanged (the `int`
conversions run before any store access). -/
theorem c3_amended_nonint_bytes_give_server_error (req : Req) (now : Nat) (s : Store)
    (h : req.bytes_sent = some RawVal.nonIntVal ∨ req.bytes_received = some RawVal.nonIntVal) :
    end_session req now s = (.serverError "ValueError", s) := by
  show (match pyInt (req.bytes_sent.getD (.intVal 0)),
             pyInt (req.bytes_received.getD (.intVal 0)) with
        | .ok sent, .ok received =>
          (match s.sessions.find? (fun x : SessionRow => req.session_id == some x.id) with
           | some sess =>
             (Resp.json 200 [("status", JVal.str "ended")],
              { s with sessions := s.sessions.map (fun x : SessionRow =>
                  if x.id == sess.id then
                    { sess with end_time := some now, active := false,
                                bytes_sent := sent, bytes_received := received }
                  else x) })
           | none => (Resp.json 404 [("error", JVal.str "Invalid session ID")], s))
        | .error e, _ => (Resp.serverError e, s)
        | .ok _, .error e => (Resp.serverError e, s)) = _
  rcases h with h | h
  · rw [h]
    rfl
  · rw [h]
    cases hbs : req.bytes_sent with
    | none => rfl
    | some v =>
      cases v with
      | intVal n => rfl
      | nonIntVal => rfl

def reqBad : Req := { emptyReq with session_id := some 1, bytes_sent := some RawVal.nonIntVal }

/-- C3 counterexample: an EndSession request for the existing session 1
whose bytes_sent is not int-parseable yields a response that is NOT a
client-error (it is a 500, the uncaught ValueError), refuting the claimed
400-equivalent; the store is unchanged. -/
theorem c3_counterexample_nonint_bytes_not_client_error :
    isClientError (end_session reqBad 7 store9).1 = false ∧
    Resp.statusCode (end_session reqBad 7 store9).1 = 500 ∧
    (end_session reqBad 7 store9).2 = store9 := by decide

/-- C4: when the byte counters parse (they default to 0 when absent), an
EndSession whose session_id matches no Session returns 404
{error: "Invalid session ID"} and leaves the store unchanged; one whose
session_id matches a Session returns {status: "ended"} and the store now
holds that Session with active = false, end_time = now (non-null), and the
byte counters set to the parsed values. -/
theorem c4_end_session_not_found_and_found (req : Req) (now : Nat) (s : Store) (sent received : Int)
    (hs : pyInt (req.bytes_sent.getD (.intVal 0)) = .ok sent)
    (hr : pyInt (req.bytes_received.getD (.intVal 0)) = .ok received) :
    (s.sessions.find? (fun x => req.session_id == some x.id) = none →
        end_session req now s = (.json 404 [("error", JVal.str "Invalid session ID")], s)) ∧
    (∀ sess, s.sessions.find? (fun x => req.session_id == some x.id) = some sess →
        (end_session req now s).1 = .json 200 [("status", JVal.str "ended")] ∧
        { sess with end_time := some now, active := false,
                    bytes_sent := sent, bytes_received := received }
          ∈ (end_session req now s).2.sessions) := by
  have hes : end_session req now s =
      (match s.sessions.find? (fun x : SessionRow => req.session_id == some x.id) with
       | some sess =>
         (Resp.json 200 [("status", JVal.str "ended")],
          { s with sessions := s.sessions.map (fun x : SessionRow =>
              if x.id == sess.id then
                { sess with end_time := some now, active := false,
                            bytes_sent := sent, bytes_received := received }
              else x) })
       | none => (Resp.json 404 [("error", JVal.str "Invalid session ID")], s)) := by
    show (match pyInt (req.bytes_sent.getD (.intVal 0)),
               pyInt (req.bytes_received.getD (.intVal 0)) with
          | .ok sent2, .ok received2 =>
            (match s.sessions.find? (fun x : SessionRow => req.session_id == some x.id) with
             | some sess =>
               (Resp.json 200 [("status", JVal.str "ended")],
                { s with sessions := s.sessions.map (fun x : SessionRow =>
                    if x.id == sess.id then
                      { sess with end_time := some now, active := false,
                                  bytes_sent := sent2, bytes_received := received2 }
                    else x) })
             | none => (Resp.json 404 [("error", JVal.str "Invalid session ID")], s))
          | .error e, _ => (Resp.serverError e, s)
          | .ok _, .error e => (Resp.serverError e, s)) = _
    rw [hs, hr]
  constructor
  · intro hnone
    rw [hes, hnone]
  · intro sess hfind
    rw [hes, hfind]
    constructor
    · rfl
    · show ({ sess with end_time := some now, active := false,
                        bytes_sent := sent, bytes_received := received } : SessionRow)
            ∈ s.sessions.map (fun x : SessionRow =>
                if x.id == sess.id then
                  { sess with end_time := some now, active := false,
                              bytes_sent := sent, bytes_received := received }
                else x)
      have hmem : sess ∈ s.sessions := List.mem_of_find?_eq_some hfind
      refine List.mem_map.mpr ⟨sess, hmem, ?_⟩
      rw [if_pos (beq_self_eq_true sess.id)]

/-- C3 amended witness: the concrete bad request discharges the disjunctive
hypothesis. -/
theorem c3_amended_nonint_bytes_give_server_error_witness :
    (reqBad.bytes_sent = some RawVal.nonIntVal ∨
     reqBad.bytes_received = some RawVal.nonIntVal) ∧
    end_session reqBad 7 store9 = (.serverError "ValueError", store9) :=
  ⟨Or.inl rfl, c3_amended_nonint_bytes_give_server_error reqBad 7 store9 (Or.inl rfl)⟩

/-- C4 witness: both branches at concrete inputs — session_id 99 is unknown
in store9 (404, store untouched), session_id 1 is known (ended with the
provided byte counts). -/
theorem c4_end_session_not_found_and_found_witness :
    (end_session { emptyReq with session_id := some 99 } 7 store9
       = (.json 404 [("error", JVal.str "Invalid session ID")], store9)) ∧
    ((end_session (endReq 1 5 6) 7 store9).1 = .json 200 [("status", JVal.str "ended")] ∧
     ({ id := 1, user_id := 1, start_time := 0, end_time := some 7,
        bytes_sent := 5, bytes_received := 6, active := false } : SessionRow)
       ∈ (end_session (endReq 1 5 6) 7 store9).2.sessions) :=
  ⟨(c4_end_session_not_found_and_found { emptyReq with session_id := some 99 }
      7 store9 0 0 rfl rfl).1 (by decide),
   (c4_end_session_not_found_and_found (endReq 1 5 6) 7 store9 5 6 rfl rfl).2
      ⟨1, 1, 0, none, 0, 0, true⟩ (by decide)⟩

/-- C6: when StartSession's external user_id matches an existing User, the
users table is completely unchanged (no second row, device_os/app_version
not overwritten by the request's values), while one new Session referencing
that User (active, null end_time, zero byte counters) is still appended and
its id returned. -/
theorem c6_get_or_create_hit_no_overwrite (req : Req) (now : Nat) (s : Store) (u : AppUserRow)
    (h : s.users.find? (fun x => x.user_id == req.user_id) = some u) :
    (start_session req now s).2.users = s.users ∧
    (start_session req now s).2.sessions
      = s.sessions ++ [⟨s.nextSessionId, u.id, now, none, 0, 0, true⟩] ∧
    (start_session req now s).1
      = .json 200 [("session_id", JVal.int (s.nextSessionId : Int)),
                   ("status", JVal.str "started")] := by
  refine ⟨?_, ?_, ?_⟩ <;> simp only [start_session] <;> rw [h]

def reqU : Req :=
  { emptyReq with user_id := some "u1", device_os := some "ios", app_version := some "2.0" }

def rowU : AppUserRow := ⟨1, some "u1", some "android", some "1.0", 0⟩

/-- C6 witness: user "u1" exists with device_os "android"; a StartSession
carrying device_os "ios" leaves the users table unchanged. -/
theorem c6_get_or_create_hit_no_overwrite_witness :
    (storeU.users.find? (fun x => x.user_id == reqU.user_id) = some rowU) ∧
    (start_session reqU 9 storeU).2.users = storeU.users :=
  ⟨rfl, (c6_get_or_create_hit_no_overwrite reqU 9 storeU rowU rfl).1⟩

lemma start_session_sessions (req : Req) (now : Nat) (s : Store) :
    ∃ uid, (start_session req now s).2.sessions
      = s.sessions ++ [⟨s.nextSessionId, uid, now, none, 0, 0, true⟩] := by
  simp only [start_session]
  cases hf : s.users.find? (fun u => u.user_id == req.user_id) with
  | none => exact ⟨s.nextUserId, rfl⟩
  | some u => exact ⟨u.id, rfl⟩

lemma start_preserves_nullEndActive (req : Req) (now : Nat) (s : Store)
    (h : InvNullEndActive s) : InvNullEndActive (start_session req now s).2 := by
  obtain ⟨uid, hs⟩ := start_session_sessions req now s
  intro x hx he
  rw [hs] at hx
  rcases List.mem_append.mp hx with hx | hx
  · exact h x hx he
  · rw [List.mem_singleton] at hx
    subst hx
    rfl

lemma end_preserves_nullEndActive (req : Req) (now : Nat) (s : Store)
    (h : InvNullEndActive s) : InvNullEndActive (end_session req now s).2 := by
  unfold end_session
  cases h1 : pyInt (req.bytes_sent.getD (.intVal 0)) with
  | error e => exact h
  | ok sent =>
    cases h2 : pyInt (req.bytes_received.getD (.intVal 0)) with
    | error e => exact h
    | ok received =>
      cases h3 : s.sessions.find? (fun x => req.session_id == some x.id) with
      | none => exact h
      | some sess =>
        intro x hx he
        have hx2 : x ∈ s.sessions.map (fun y : SessionRow =>
            if y.id == sess.id then
              { sess with end_time := some now, active := false,
                          bytes_sent := sent, bytes_received := received }
            else y) := hx
        rcases List.mem_map.mp hx2 with ⟨y, hy, hxy⟩
        by_cases hid : (y.id == sess.id) = true
        · rw [if_pos hid] at hxy
          rw [← hxy] at he
          cases he
        · rw [if_neg hid] at hxy
          subst hxy
          exact h y hy he

lemma run_nullEndActive (ops : List Op) : InvNullEndActive (run ops) := by
  have key : ∀ (l : List Op) (s : Store), InvNullEndActive s → InvNullEndActive (l.foldl step s) := by
    intro l
    induction l with
    | nil => intro s h; exact h
    | cons op rest ih =>
      intro s h
      refine ih (step s op) ?_
      cases op with
      | startOp req now => exact start_preserves_nullEndActive req now s h
      | endOp req now => exact end_preserves_nullEndActive req now s h
  refine key ops emptyStore ?_
  intro x hx he
  cases hx

/-- C8: in every store reachable from the empty store by StartSession and
EndSession operations, a Session whose end_time is null has active = true:
StartSession creates Sessions with (null end_time, active) and EndSession
sets end_time and active := false together. -/
theorem c8_null_end_time_implies_active (ops : List Op) (x : SessionRow)
    (hx : x ∈ (run ops).sessions) (he : x.end_time = none) : x.active = true :=
  run_nullEndActive ops x hx he

/-- C8 witness: the session created by one StartSession has null end_time,
and the theorem yields its activeness. -/
theorem c8_null_end_time_implies_active_witness :
    ((⟨1, 1, 5, none, 0, 0, true⟩ : SessionRow) ∈ (run [Op.startOp emptyReq 5]).sessions) ∧
    (⟨1, 1, 5, none, 0, 0, true⟩ : SessionRow).active = true :=
  ⟨by decide, c8_null_end_time_implies_active [Op.startOp emptyReq 5] ⟨1, 1, 5, none, 0, 0, true⟩ (by decide) rfl⟩

lemma pyInt_nonNeg {o : Option RawVal} {n : Int}
    (hnn : nonNegRawB o = true) (h : pyInt (o.getD (.intVal 0)) = .ok n) : 0 ≤ n := by
  cases o with
  | none =>
    cases h
    exact le_rfl
  | some v =>
    cases v with
    | intVal m =>
      cases h
      exact of_decide_eq_true hnn
    | nonIntVal => cases h

lemma start_preserves_bytesNonNeg (req : Req) (now : Nat) (s : Store)
    (h : InvBytesNonNeg s) : InvBytesNonNeg (start_session req now s).2 := by
  obtain ⟨uid, hs⟩ := start_session_sessions req now s
  intro x hx
  rw [hs] at hx
  rcases List.mem_append.mp hx with hx | hx
  · exact h x hx
  · rw [List.mem_singleton] at hx
    subst hx
    exact ⟨le_rfl, le_rfl⟩

lemma end_preserves_bytesNonNeg (req : Req) (now : Nat) (s : Store)
    (hbs : nonNegRawB req.bytes_sent = true)
    (hbr : nonNegRawB req.bytes_received = true)
    (h : InvBytesNonNeg s) : InvBytesNonNeg (end_session req now s).2 := by
  unfold end_session
  cases h1 : pyInt (req.bytes_sent.getD (.intVal 0)) with
  | error e => exact h
  | ok sent =>
    cases h2 : pyInt (req.bytes_received.getD (.intVal 0)) with
    | error e => exact h
    | ok received =>
      cases h3 : s.sessions.find? (fun x => req.session_id == some x.id) with
      | none => exact h
      | some sess =>
        intro x hx
        have hx2 : x ∈ s.sessions.map (fun y : SessionRow =>
            if y.id == sess.id then
              { sess with end_time := some now, active := false,
                          bytes_sent := sent, bytes_received := received }
            else y) := hx
        rcases List.mem_map.mp hx2 with ⟨y, hy, hxy⟩
        by_cases hid : (y.id == sess.id) = true
        · rw [if_pos hid] at hxy
          rw [← hxy]
          exact ⟨pyInt_nonNeg hbs h1, pyInt_nonNeg hbr h2⟩
        · rw [if_neg hid] at hxy
          subst hxy
          exact h y hy

lemma run_bytesNonNeg (ops : List Op) (hops : ops.all Op.nonNegInputs = true) :
    InvBytesNonNeg (run ops) := by
  have key : ∀ (l : List Op) (s : Store), l.all Op.nonNegInputs = true →
      InvBytesNonNeg s → InvBytesNonNeg (l.foldl step s) := by
    intro l
    induction l with
    | nil => intro s _ h; exact h
    | cons op rest ih =>
      intro s hall h
      rw [List.all_cons, Bool.and_eq_true] at hall
      refine ih (step s op) hall.2 ?_
      cases op with
      | startOp req now => exact start_preserves_bytesNonNeg req now s h
      | endOp req now =>
        have hop : (nonNegRawB req.bytes_sent && nonNegRawB req.bytes_received) = true := hall.1
        rw [Bool.and_eq_true] at hop
        exact end_preserves_bytesNonNeg req now s hop.1 hop.2 h
  refine key ops emptyStore hops ?_
  intro x hx
  cases hx

/-- C7 amended: in every store reachable by StartSession and EndSession
operations whose provided byte-count integers are all non-negative, every
Session's bytes_sent and bytes_received are non-negative.  (Without that
restriction the claim fails: EndSession stores whatever integer the client
sends — see the counterexample.) -/
theorem c7_amended_bytes_nonneg_for_nonneg_inputs (ops : List Op) (hops : ops.all Op.nonNegInputs = true)
    (x : SessionRow) (hx : x ∈ (run ops).sessions) :
    0 ≤ x.bytes_sent ∧ 0 ≤ x.bytes_received :=
  run_bytesNonNeg ops hops x hx

def reqNeg : Req :=
  { emptyReq with user_id := some "u1", session_id := some 1,
                  bytes_sent := some (.intVal (-1)) }

def opsNeg : List Op := [Op.startOp { emptyReq with user_id := some "u1" } 1, Op.endOp reqNeg 2]

/-- C7 counterexample: starting a session and ending it with
bytes_sent = -1 reaches a store whose Session row holds a negative byte
counter — EndSession has no non-negativity guard. -/
theorem c7_counterexample_negative_bytes_stored :
    ((⟨1, 1, 1, some 2, -1, 0, false⟩ : SessionRow) ∈ (run opsNeg).sessions) ∧
    (⟨1, 1, 1, some 2, -1, 0, false⟩ : SessionRow).bytes_sent < 0 := by decide

/-- C7 amended witness: a run of one StartSession satisfies the
non-negative-inputs hypothesis and its session has non-negative counters. -/
theorem c7_amended_bytes_nonneg_for_nonneg_inputs_witness :
    ([Op.startOp emptyReq 3].all Op.nonNegInputs = true) ∧
    ((⟨1, 1, 3, none, 0, 0, true⟩ : SessionRow) ∈ (run [Op.startOp emptyReq 3]).sessions) ∧
    (0 ≤ (⟨1, 1, 3, none, 0, 0, true⟩ : SessionRow).bytes_sent ∧
     0 ≤ (⟨1, 1, 3, none, 0, 0, true⟩ : SessionRow).bytes_received) :=
  ⟨rfl, by decide,
   c7_amended_bytes_nonneg_for_nonneg_inputs [Op.startOp emptyReq 3] rfl ⟨1, 1, 3, none, 0, 0, true⟩ (by decide)⟩

lemma find?_map_pres {α : Type} (f : α → α) (p : α → Bool)
    (hp : ∀ x, p (f x) = p x) :
    ∀ l : List α, (l.map f).find? p = (l.find? p).map f := by
  intro l
  induction l with
  | nil => rfl
  | cons a t ih =>
    rw [List.map_cons, List.find?_cons, List.find?_cons, hp a]
    cases hpa : p a with
    | true => rfl
    | false => exact ih

lemma end_session_found_eq (sid : Nat) (a b : Int) (now : Nat) (s : Store) (sess : SessionRow)
    (hfind : s.sessions.find? (fun x => (some sid : Option Nat) == some x.id) = some sess) :
    end_session (endReq sid a b) now s =
      (.json 200 [("status", JVal.str "ended")],
       { s with sessions := s.sessions.map (fun y : SessionRow =>
           if y.id == sess.id then
             { sess with end_time := some now, active := false,
                         bytes_sent := a, bytes_received := b }
           else y) }) := by
  show (match s.sessions.find? (fun x : SessionRow => (endReq sid a b).session_id == some x.id) with
        | some sess2 =>
          (Resp.json 200 [("status", JVal.str "ended")],
           { s with sessions := s.sessions.map (fun y : SessionRow =>
               if y.id == sess2.id then
                 { sess2 with end_time := some now, active := false,
                              bytes_sent := a, bytes_received := b }
               else y) })
        | none => (Resp.json 404 [("error", JVal.str "Invalid session ID")], s)) = _
  rw [show (endReq sid a b).session_id = some sid from rfl, hfind]

/-- C9: EndSession has no guard on active = false: on a store where the
session id exists, a first EndSession succeeds and a second EndSession with
different byte values succeeds again, overwriting bytes_sent/bytes_received
with the new values and resetting end_time to the second call's time — the
final state reflects only the second call. -/
theorem c9_double_end_overwrites (s : Store) (sid : Nat) (a1 b1 a2 b2 : Int) (n1 n2 : Nat)
    (h : (s.sessions.find? (fun x => (some sid : Option Nat) == some x.id)).isSome = true) :
    (end_session (endReq sid a1 b1) n1 s).1 = .json 200 [("status", JVal.str "ended")] ∧
    (end_session (endReq sid a2 b2) n2 (end_session (endReq sid a1 b1) n1 s).2).1
      = .json 200 [("status", JVal.str "ended")] ∧
    ∀ x ∈ (end_session (endReq sid a2 b2) n2 (end_session (endReq sid a1 b1) n1 s).2).2.sessions,
      x.id = sid →
        x.bytes_sent = a2 ∧ x.bytes_received = b2 ∧ x.end_time = some n2 ∧ x.active = false := by
  obtain ⟨sess, hfind⟩ := Option.isSome_iff_exists.mp h
  have hsid : sid = sess.id := by
    have hpred := List.find?_some hfind
    simpa using hpred
  have hes1 := end_session_found_eq sid a1 b1 n1 s sess hfind
  have hp : ∀ y : SessionRow,
      (fun x : SessionRow => (some sid : Option Nat) == some x.id)
        ((fun y : SessionRow =>
            if y.id == sess.id then
              { sess with end_time := some n1, active := false,
                          bytes_sent := a1, bytes_received := b1 }
            else y) y)
      = (fun x : SessionRow => (some sid : Option Nat) == some x.id) y := by
    intro y
    by_cases hid : (y.id == sess.id) = true
    · have hy : y.id = sess.id := by simpa using hid
      simp [hid, hy]
    · simp [hid]
  have hfind2 : (end_session (endReq sid a1 b1) n1 s).2.sessions.find?
      (fun x => (some sid : Option Nat) == some x.id)
      = some { sess with end_time := some n1, active := false,
                         bytes_sent := a1, bytes_received := b1 } := by
    rw [hes1]
    show (s.sessions.map (fun y : SessionRow =>
        if y.id == sess.id then
          { sess with end_time := some n1, active := false,
                      bytes_sent := a1, bytes_received := b1 }
        else y)).find? (fun x => (some sid : Option Nat) == some x.id) = _
    rw [find?_map_pres _ _ hp, hfind]
    show some (if sess.id == sess.id then _ else sess) = _
    rw [if_pos (beq_self_eq_true sess.id)]
  have hes2 := end_session_found_eq sid a2 b2 n2 (end_session (endReq sid a1 b1) n1 s).2
      { sess with end_time := some n1, active := false,
                  bytes_sent := a1, bytes_received := b1 } hfind2
  refine ⟨by rw [hes1], by rw [hes2], ?_⟩
  intro x hx hxid
  rw [hes2] at hx
  have hx2 : x ∈ (end_session (endReq sid a1 b1) n1 s).2.sessions.map (fun y : SessionRow =>
      if y.id == sess.id then
        { sess with end_time := some n2, active := false,
                    bytes_sent := a2, bytes_received := b2 }
      else y) := hx
  rcases List.mem_map.mp hx2 with ⟨y, hy, hxy⟩
  by_cases hid : (y.id == sess.id) = true
  · rw [if_pos hid] at hxy
    rw [← hxy]
    exact ⟨rfl, rfl, rfl, rfl⟩
  · rw [if_neg hid] at hxy
    exfalso
    apply hid
    rw [hxy, hxid, hsid]
    exact beq_self_eq_true sess.id

/-- C9 witness: concrete double-end on store9's session 1, the second call
succeeding. -/
theorem c9_double_end_overwrites_witness :
    ((store9.sessions.find? (fun x => (some 1 : Option Nat) == some x.id)).isSome = true) ∧
    ((end_session (endReq 1 30 40) 2 (end_session (endReq 1 10 20) 1 store9).2).1
       = .json 200 [("status", JVal.str "ended")]) :=
  ⟨by decide, (c9_double_end_overwrites store9 1 10 20 30 40 1 2 (by decide)).2.1⟩
